import Mathlib

/-!
Verification of the Streaming Assistance Session Engine of the `dash`
repository (static/js/components/alert-card.js `AIService`, the AI assist
modal component, and the application controller `DependabotApp`).

The JavaScript source is shallowly embedded: strings are Lean `String`s,
JS falsiness of a string is the test against `""`, JS objects become
structures, the single `fetch` exchange is abstracted by a `Transport`
value describing what the network does (no response / a response with a
status, an optional parsed JSON error body, a list of body chunks and an
end-of-stream behaviour), and the subscriber callbacks `onData` /
`onComplete` / `onError` become an event trace.
-/

namespace Dash

/-- Character-list test: does `s` start with `pat`?  Used to build the model
of JavaScript `String.prototype.includes`. -/
def charsStartWith : List Char → List Char → Bool
  | _, [] => true
  | [], _ :: _ => false
  | c :: cs, p :: ps => c == p && charsStartWith cs ps

/-- Character-list substring test: does `s` contain `pat` anywhere? -/
def charsContain : List Char → List Char → Bool
  | [], pat => charsStartWith [] pat
  | c :: rest, pat => charsStartWith (c :: rest) pat || charsContain rest pat

/-- Model of JavaScript `String.prototype.includes`. -/
def jsIncludes (s pat : String) : Bool :=
  charsContain s.toList pat.toList

/-- One character of `AppHelpers.escapeHtml` (github-api.js 431-439).  The
source performs five sequential global replaces (`&`, `<`, `>`, `"`, `'`,
in that order); because every pattern is a single character and no
replacement string contains a character that an earlier pass would have
left unreplaced, the sequential passes are equivalent to this single
character-by-character map. -/
def escapeChar (c : Char) : List Char :=
  if c = '&' then "&amp;".toList
  else if c = '<' then "&lt;".toList
  else if c = '>' then "&gt;".toList
  else if c = '"' then "&quot;".toList
  else if c = '\x27' then "&#039;".toList
  else [c]

/-- `AppHelpers.escapeHtml` (github-api.js 431-439). -/
def escapeHtml (s : String) : String :=
  String.mk (s.toList.map escapeChar).flatten

/-- constants.js `ERROR_MESSAGES.NETWORK_ERROR`. -/
def NETWORK_ERROR : String := "Network error occurred. Please check your connection."

/-- constants.js `ERROR_MESSAGES.AI_SERVICE_ERROR`. -/
def AI_SERVICE_ERROR : String := "AI service is currently unavailable. Please try again later."

/-- constants.js `ERROR_MESSAGES.UNAUTHORIZED`. -/
def UNAUTHORIZED_MSG : String := "Unauthorized access. Please check your GitHub token."

/-- constants.js `ERROR_MESSAGES.RATE_LIMITED`. -/
def RATE_LIMITED_MSG : String := "Rate limit exceeded. Please wait before making more requests."

/-- The message of the service-unavailable branch of `_handleApiError`
(alert-card.js 637). -/
def SERVICE_UNAVAILABLE_MSG : String := "AI service is temporarily unavailable. Please try again later."

/-- The message of the internal-error branch of `_handleApiError`
(alert-card.js 640). -/
def SERVICE_INTERNAL_MSG : String := "AI service encountered an internal error. Please try again."

/-- The guard message thrown by `streamFixSuggestion` (alert-card.js 469). -/
def alreadyInProgressMsg : String := "AI assistance is already in progress"

/-- An alert record (the fields `streamFixSuggestion` and the app controller
read).  A JS field that is absent or the empty string is modelled as `""`,
matching every falsiness test the source performs on these fields. -/
structure Alert where
  id : String
  vulnerability : String
  package : String
  severity : String
  patched_in : String
  apply_fix_in : String
  repo_name : String
deriving DecidableEq, Repr

/-- The validated projection built by `_validateAlertData`
(alert-card.js 545-554). -/
structure ProcessedAlert where
  vulnerability : String
  package : String
  severity : String
  patched_in : String
  apply_fix_in : String
  repo_name : String
  created_at : String
deriving DecidableEq, Repr

/-- The `requiredFields` array of `_validateAlertData` (alert-card.js 538). -/
def requiredFields : List String := ["vulnerability", "package", "severity"]

/-- Dynamic field access `alertData[field]` for the three required fields. -/
def alertField (a : Alert) : String → String
  | "vulnerability" => a.vulnerability
  | "package" => a.package
  | "severity" => a.severity
  | _ => ""

/-- `requiredFields.filter(field => !alertData[field])` (alert-card.js 539). -/
def missingFields (a : Alert) : List String :=
  requiredFields.filter (fun f => alertField a f == "")

/-- `_validateAlertData` (alert-card.js 537-555): throws on missing required
fields, otherwise builds the processed request body.  `nowIso` stands for
`new Date().toISOString()`. -/
def validateAlertData (a : Alert) (nowIso : String) : Except String ProcessedAlert :=
  let missing := missingFields a
  if missing.length > 0 then
    Except.error ("Missing required fields: " ++ String.intercalate ", " missing)
  else
    Except.ok
      { vulnerability := escapeHtml a.vulnerability
        package := escapeHtml a.package
        severity := a.severity
        patched_in := if a.patched_in == "" then "N/A" else a.patched_in
        apply_fix_in := if a.apply_fix_in == "" then "Unknown file" else a.apply_fix_in
        repo_name := if a.repo_name == "" then "Unknown repository" else a.repo_name
        created_at := nowIso }

/-- A subscriber-visible stream event: `onData` is an invocation of the
`onData` callback (a Partial event carrying the accumulated buffer),
`onComplete` and `onError` are invocations of the terminal callbacks, and
`cancelled` is the spec's `Cancelled` variant — no code path of this
repository ever produces it, which is exactly what the cancellation claims
are about. -/
inductive Event where
  | onData (text : String)
  | onComplete (text : String)
  | onError (message : String)
  | cancelled
deriving DecidableEq, Repr

/-- True for `onData` events (the spec's non-terminal Partial events). -/
def isDataEvent : Event → Bool
  | Event.onData _ => true
  | _ => false

/-- True for terminal events (`onComplete`, `onError`, `cancelled`). -/
def isTerminalEvent (e : Event) : Bool := !isDataEvent e

/-- True only for the spec's `Cancelled` variant. -/
def isCancelledEvent : Event → Bool
  | Event.cancelled => true
  | _ => false

/-- The stream reader object stored in `this.currentStream`
(alert-card.js 569): the value of `response.body.getReader()`. -/
structure StreamReader where
deriving DecidableEq, Repr

/-- Modelled from the Web Streams API (external to this repository): a
`ReadableStreamDefaultReader`, which is what `response.body.getReader()`
returns and what `_handleStreamingResponse` stores in `this.currentStream`,
exposes `read`, `cancel` and `releaseLock`; it has no `abort` method, so the
JS truthiness test `this.currentStream.abort` in `cancelStream`
(alert-card.js 512) evaluates to `undefined`, i.e. false. -/
def readerHasAbortMethod (_ : StreamReader) : Bool := false

/-- The mutable fields of the `AIService` singleton (alert-card.js 455-456). -/
structure SvcState where
  isStreaming : Bool
  currentStream : Option StreamReader
deriving DecidableEq, Repr

/-- `cancelStream` (alert-card.js 511-521).  Returns the new service state
together with whether `currentStream.abort()` was actually invoked (the
guard requires `currentStream` non-null and an `abort` property, and the
stored reader has none).  Its body invokes no subscriber callback, so it
contributes no event to any trace. -/
def cancelStream (st : SvcState) : SvcState × Bool :=
  let abortCalled :=
    match st.currentStream with
    | some r => readerHasAbortMethod r
    | none => false
  ({ isStreaming := false, currentStream := none }, abortCalled)

/-- The error object built and thrown by `_handleApiError`
(alert-card.js 644-648). -/
structure ApiError where
  message : String
  status : Nat
  statusText : String
deriving DecidableEq, Repr

/-- `_handleApiError` (alert-card.js 616-649), as the classification it
performs.  `jsonError` is the `error` field of the response body when the
body is parseable JSON carrying one (the source's failed `response.json()`
is caught and falls back to the default message, so classification itself
never raises); the source then overrides the message by status: 401, 429,
503, 500, everything else keeps the parsed (or default) message.  The raw
status and statusText are attached to the thrown error. -/
def handleApiError (status : Nat) (statusText : String) (jsonError : Option String) : ApiError :=
  let base :=
    match jsonError with
    | some e => if e == "" then AI_SERVICE_ERROR else e
    | none => AI_SERVICE_ERROR
  let msg :=
    if status == 401 then UNAUTHORIZED_MSG
    else if status == 429 then RATE_LIMITED_MSG
    else if status == 503 then SERVICE_UNAVAILABLE_MSG
    else if status == 500 then SERVICE_INTERNAL_MSG
    else base
  { message := msg, status := status, statusText := statusText }

/-- A JS `Error`-like value as inspected by `AppHelpers.getErrorMessage`. -/
structure JsError where
  name : String
  message : String
  status : Option Nat
deriving DecidableEq, Repr

/-- `AppHelpers.getErrorMessage` (github-api.js 641-657).  `none` models a
falsy `error` argument, i.e. no response/failure object at all. -/
def getErrorMessage (e : Option JsError) : String :=
  match e with
  | none => NETWORK_ERROR
  | some err =>
    if err.name == "TypeError" || jsIncludes err.message "Failed to fetch" then
      NETWORK_ERROR
    else if err.status == some 401 then UNAUTHORIZED_MSG
    else if err.status == some 429 then RATE_LIMITED_MSG
    else if err.message == "" then NETWORK_ERROR
    else err.message

/-- How the response body ends after its chunks are exhausted: a clean
transport end-of-stream, or a read failure with the given message. -/
inductive Ending where
  | eos
  | err (msg : String)
deriving DecidableEq, Repr

/-- A `fetch` response as consumed by `streamFixSuggestion`: the `ok` flag
and `status`/`statusText`, the optional parsed JSON `error` field of the
body (for the non-ok path), and the streamed body (for the ok path). -/
structure HttpResp where
  ok : Bool
  status : Nat
  statusText : String
  jsonError : Option String
  chunks : List String
  ending : Ending
deriving DecidableEq, Repr

/-- What the network does for the single `/stream_fix` exchange: either the
fetch promise rejects with an error message (no response reached the
client), or a response arrives. -/
inductive Transport where
  | noResponse (msg : String)
  | response (r : HttpResp)
deriving DecidableEq, Repr

/-- The completion-marker test of the read loop (alert-card.js 592):
`buffer.includes('✅ Done') || buffer.includes('Done')`. -/
def includesDoneMarker (buffer : String) : Bool :=
  jsIncludes buffer "✅ Done" || jsIncludes buffer "Done"

/-- Result of the read loop of `_handleStreamingResponse`. -/
structure LoopOut where
  events : List Event
  buffer : String
  remaining : List String
  markerExit : Bool
  st : SvcState
deriving DecidableEq, Repr

/-- The `while (!isComplete)` read loop of `_handleStreamingResponse`
(alert-card.js 574-595), with an interleaved-cancellation schedule: when
`cp = some k` a `cancelStream()` call runs at the cooperative suspension
point after the k-th `onData` callback (counting from 1).  The loop's own
control state is the local variables `buffer`/`isComplete` and the reader;
`cancelStream` writes only the `isStreaming`/`currentStream` fields (which
the loop never reads) and its abort branch cannot fire (the reader has no
`abort` method), which is why chunk consumption continues past it.
`remaining` are the chunks never read because the marker ended the loop;
`markerExit` records whether the loop ended via the marker test rather
than by exhausting the chunks. -/
def readLoop : List String → String → SvcState → Option Nat → LoopOut
  | [], buffer, st, _ =>
    { events := [], buffer := buffer, remaining := [], markerExit := false, st := st }
  | c :: rest, buffer, st, cp =>
    let buf := buffer ++ c
    let st1 := if cp == some 1 then (cancelStream st).1 else st
    let cp1 := cp.map (fun n => n - 1)
    if includesDoneMarker buf then
      { events := [Event.onData buf], buffer := buf, remaining := rest,
        markerExit := true, st := st1 }
    else
      let r := readLoop rest buf st1 cp1
      { events := Event.onData buf :: r.events, buffer := r.buffer,
        remaining := r.remaining, markerExit := r.markerExit, st := r.st }

/-- Result of `_handleStreamingResponse`: the callback invocations, the
exception it rethrows (if the read failed), and the service state. -/
structure StreamOut where
  events : List Event
  thrown : Option String
  st : SvcState
deriving DecidableEq, Repr

/-- `_handleStreamingResponse` (alert-card.js 565-609): stores the reader in
`currentStream`, runs the read loop, and either reports completion with the
accumulated buffer via `onComplete` (on a clean end-of-stream, or when the
marker ended the loop — in which case the ending is never observed because
no further `read()` happens) or, when a read fails, reports the failure via
`onError` in its own catch block and rethrows. -/
def handleStreamingResponse (chunks : List String) (ending : Ending)
    (st : SvcState) (cp : Option Nat) : StreamOut :=
  let st0 : SvcState := { isStreaming := st.isStreaming, currentStream := some {} }
  let r := readLoop chunks "" st0 cp
  if r.markerExit then
    { events := r.events ++ [Event.onComplete r.buffer], thrown := none, st := r.st }
  else
    match ending with
    | Ending.eos =>
      { events := r.events ++ [Event.onComplete r.buffer], thrown := none, st := r.st }
    | Ending.err m =>
      { events := r.events ++ [Event.onError m], thrown := some m, st := r.st }

/-- The observable outcome of one `streamFixSuggestion` call: the callback
trace, the POST bodies sent to `/stream_fix`, the exception propagated to
the caller (if any), whether the call was rejected by the single-flight
guard, and the service state after the call returns. -/
structure RunOutcome where
  events : List Event
  posts : List ProcessedAlert
  thrown : Option String
  guardRejected : Bool
  finalState : SvcState
deriving DecidableEq, Repr

/-- `streamFixSuggestion` (alert-card.js 467-506) with an interleaved
cancellation schedule `cp` (see `readLoop`).  The single-flight guard throws
before any state change; otherwise `isStreaming` is set, the alert is
validated (throwing before any network activity on missing fields), the
POST is issued, a non-ok response is classified by `_handleApiError` and
thrown, and the body is streamed.  The outer catch invokes `onError` for
any exception escaping the try block — including one already reported by
`_handleStreamingResponse`'s inner catch, which therefore surfaces twice —
and the finally block resets `isStreaming`/`currentStream` on every path. -/
def streamFixSuggestionAux (st : SvcState) (a : Alert) (nowIso : String)
    (tr : Transport) (cp : Option Nat) : RunOutcome :=
  if st.isStreaming then
    { events := [], posts := [], thrown := some alreadyInProgressMsg,
      guardRejected := true, finalState := st }
  else
    let fin : SvcState := { isStreaming := false, currentStream := none }
    match validateAlertData a nowIso with
    | Except.error m =>
      { events := [Event.onError m], posts := [], thrown := some m,
        guardRejected := false, finalState := fin }
    | Except.ok pa =>
      match tr with
      | Transport.noResponse m =>
        { events := [Event.onError m], posts := [pa], thrown := some m,
          guardRejected := false, finalState := fin }
      | Transport.response r =>
        if r.ok == false then
          let e := handleApiError r.status r.statusText r.jsonError
          { events := [Event.onError e.message], posts := [pa], thrown := some e.message,
            guardRejected := false, finalState := fin }
        else
          let h := handleStreamingResponse r.chunks r.ending
            { isStreaming := true, currentStream := none } cp
          match h.thrown with
          | some m =>
            { events := h.events ++ [Event.onError m], posts := [pa], thrown := some m,
              guardRejected := false, finalState := fin }
          | none =>
            { events := h.events, posts := [pa], thrown := none,
              guardRejected := false, finalState := fin }

/-- `streamFixSuggestion` with no interleaved cancel call. -/
def streamFixSuggestion (st : SvcState) (a : Alert) (nowIso : String)
    (tr : Transport) : RunOutcome :=
  streamFixSuggestionAux st a nowIso tr none

/-- A `streamFixSuggestion` call during which `cancelStream()` is invoked at
the suspension point after the k-th `onData` callback. -/
def runWithCancelAfter (st : SvcState) (a : Alert) (nowIso : String)
    (tr : Transport) (k : Nat) : RunOutcome :=
  streamFixSuggestionAux st a nowIso tr (some k)

/-- One entry of the `ai_responses` store (alert-card.js 753-756). -/
structure CacheEntry where
  response : String
  timestamp : Int
deriving DecidableEq, Repr

/-- The `ai_responses` object, keyed by alert id. -/
def Cache := List (String × CacheEntry)

/-- JS property lookup `cache[alertId]`. -/
def lookupEntry : Cache → String → Option CacheEntry
  | [], _ => none
  | (k, e) :: rest, i => if k == i then some e else lookupEntry rest i

/-- JS property assignment `cache[alertId] = entry` (overwrites). -/
def setEntry (c : Cache) (k : String) (e : CacheEntry) : Cache :=
  (k, e) :: (c.filter (fun p => p.1 != k))

/-- The retention window used by `getCachedResponse` (alert-card.js 777):
`24 * 60 * 60 * 1000` milliseconds. -/
def CACHE_TTL : Int := 24 * 60 * 60 * 1000

/-- `getCachedResponse` (alert-card.js 768-785): absent for a falsy id, a
missing entry, an entry with falsy text, or an entry whose age `now -
timestamp` is not strictly below the 24h window; otherwise the stored
text. -/
def getCachedResponse (cache : Cache) (now : Int) (alertId : String) : Option String :=
  if alertId == "" then none
  else
    match lookupEntry cache alertId with
    | some cached =>
      if cached.response == "" then none
      else if now - cached.timestamp < CACHE_TTL then some cached.response
      else none
    | none => none

/-- `cacheResponse` (alert-card.js 748-761): refuses a falsy id or falsy
text, otherwise stamps the current time and overwrites the entry.  The
second component is a receipt of the write actually performed (none when
the guard refused), used to count cache writes. -/
def cacheResponse (cache : Cache) (now : Int) (alertId resp : String) :
    Cache × Option (String × String) :=
  if alertId == "" || resp == "" then (cache, none)
  else (setEntry cache alertId { response := resp, timestamp := now }, some (alertId, resp))

/-- The modal component state read and written along the streaming callbacks
(part_001: `isVisible`, `isStreaming`, `currentAlert`). -/
structure ModalState where
  isVisible : Bool
  isStreaming : Bool
  currentAlert : Option Alert
deriving DecidableEq, Repr

/-- Accumulator while folding a session's events through the modal's
callbacks: the modal state, the cache, and the log of performed cache
writes. -/
structure ModalFold where
  modal : ModalState
  cache : Cache
  writes : List (String × String)

/-- `handleStreamingComplete` (part_001 170-197): clears the modal's
streaming flag, returns early when the content element is missing or the
modal is no longer visible, and otherwise — when the current alert has a
truthy id — calls `cacheResponse` with the final text. -/
def handleStreamingComplete (hasContent : Bool) (now : Int)
    (acc : ModalFold) (finalData : String) : ModalFold :=
  let m1 := { acc.modal with isStreaming := false }
  if hasContent == false || acc.modal.isVisible == false then
    { acc with modal := m1 }
  else
    match acc.modal.currentAlert with
    | some al =>
      if al.id == "" then { acc with modal := m1 }
      else
        let cw := cacheResponse acc.cache now al.id finalData
        { modal := m1, cache := cw.1, writes := acc.writes ++ cw.2.toList }
    | none => { acc with modal := m1 }

/-- Dispatch of one streamed event to the modal's callbacks
(`updateStreamingContent` / `handleStreamingComplete` /
`handleStreamingError`, part_001 152-216).  `updateStreamingContent` and
`handleStreamingError` touch no cache state; `handleStreamingError` clears
the streaming flag. -/
def modalStep (hasContent : Bool) (now : Int) (acc : ModalFold) (e : Event) : ModalFold :=
  match e with
  | Event.onData _ => acc
  | Event.onComplete t => handleStreamingComplete hasContent now acc t
  | Event.onError _ => { acc with modal := { acc.modal with isStreaming := false } }
  | Event.cancelled => acc

/-- The outcome of `showModal` + `streamAIResponse` for one alert: the
service-level run, the final modal state, cache and write log. -/
structure SessionOutcome where
  run : RunOutcome
  modal : ModalState
  cache : Cache
  writes : List (String × String)

/-- `showModal` (part_001 73-98) followed by `streamAIResponse`
(part_001 135-146): marks the modal visible and streaming, shows the
loading state, then unconditionally runs `streamFixSuggestion`, delivering
its events through the modal's callbacks; the catch of `streamAIResponse`
runs `handleStreamingError` once more when the service call rethrew. -/
def runModalSession (hasContent : Bool) (cache : Cache) (now : Int) (nowIso : String)
    (svc : SvcState) (a : Alert) (tr : Transport) : SessionOutcome :=
  let m0 : ModalState := { isVisible := true, isStreaming := true, currentAlert := some a }
  let run := streamFixSuggestion svc a nowIso tr
  let f := run.events.foldl (modalStep hasContent now)
    { modal := m0, cache := cache, writes := [] }
  let fm :=
    match run.thrown with
    | some _ => { f with modal := { f.modal with isStreaming := false } }
    | none => f
  { run := run, modal := fm.modal, cache := fm.cache, writes := fm.writes }

/-- `loadCachedResponse` (part_001 348-365): false for a falsy alert id,
otherwise true exactly when `getCachedResponse` returns a (truthy) cached
text, which it then displays. -/
def loadCachedResponse (cache : Cache) (now : Int) (a : Alert) : Bool :=
  if a.id == "" then false
  else
    match getCachedResponse cache now a.id with
    | some _ => true
    | none => false

/-- The observable outcome of `DependabotApp.handleAIAssistRequest`. -/
structure AssistOutcome where
  cacheHit : Bool
  posts : List ProcessedAlert
  events : List Event
  cache : Cache
  writes : List (String × String)

/-- `handleAIAssistRequest` (part_000 210-251): updates the modal header,
checks the cache via `loadCachedResponse`, and in the cache-hit branch
logs, calls `showModal(alert)` and returns early; in the miss branch it
awaits `showModal(alert)`.  Both branches therefore run the modal session
(and with it `streamFixSuggestion`). -/
def handleAIAssistRequest (hasContent : Bool) (cache : Cache) (now : Int) (nowIso : String)
    (svc : SvcState) (a : Alert) (tr : Transport) : AssistOutcome :=
  if a.id != "" && loadCachedResponse cache now a then
    let s := runModalSession hasContent cache now nowIso svc a tr
    { cacheHit := true, posts := s.run.posts, events := s.run.events,
      cache := s.cache, writes := s.writes }
  else
    let s := runModalSession hasContent cache now nowIso svc a tr
    { cacheHit := false, posts := s.run.posts, events := s.run.events,
      cache := s.cache, writes := s.writes }

/-- The spec's closed set of transport-failure kinds (spec section 4.2). -/
inductive ErrorKind where
  | networkError
  | unauthorized
  | rateLimited
  | serviceInternalError
  | serviceUnavailable
  | unknownApiError
deriving DecidableEq, Repr

/-- The transport-failure classification implemented by the code, at the
kind level: the no-response branch of `getErrorMessage` (github-api.js
642-646) plus the status switch of `_handleApiError` (alert-card.js
629-642); the switch's default keeps the raw (or default) message, which is
the spec's `UnknownApiError`. -/
def classifyKind : Option Nat → ErrorKind
  | none => ErrorKind.networkError
  | some s =>
    if s == 401 then ErrorKind.unauthorized
    else if s == 429 then ErrorKind.rateLimited
    else if s == 503 then ErrorKind.serviceUnavailable
    else if s == 500 then ErrorKind.serviceInternalError
    else ErrorKind.unknownApiError

/-- The user-facing message the code attaches to each kind; for
`UnknownApiError` that is the raw parsed body message when truthy, else the
default AI-service message. -/
def messageOfKind (k : ErrorKind) (jsonError : Option String) : String :=
  match k with
  | ErrorKind.networkError => NETWORK_ERROR
  | ErrorKind.unauthorized => UNAUTHORIZED_MSG
  | ErrorKind.rateLimited => RATE_LIMITED_MSG
  | ErrorKind.serviceInternalError => SERVICE_INTERNAL_MSG
  | ErrorKind.serviceUnavailable => SERVICE_UNAVAILABLE_MSG
  | ErrorKind.unknownApiError =>
    match jsonError with
    | some e => if e == "" then AI_SERVICE_ERROR else e
    | none => AI_SERVICE_ERROR

/-- Left-fold accumulation of chunks onto a buffer, exactly as the read
loop's `buffer += chunk` builds its text. -/
def accumFrom (buffer : String) : List String → String
  | [] => buffer
  | c :: rest => accumFrom (buffer ++ c) rest

/-- The expected `onData` trace for a run of the read loop starting from
`buffer`: one cumulative-buffer event per consumed chunk. -/
def dataEvents (buffer : String) : List String → List Event
  | [] => []
  | c :: rest => Event.onData (buffer ++ c) :: dataEvents (buffer ++ c) rest

/-- The texts of the `onComplete` invocations of a trace. -/
def completedTexts (evs : List Event) : List String :=
  evs.filterMap (fun e =>
    match e with
    | Event.onComplete t => some t
    | _ => none)

/-- A fresh service state: the `AIService` singleton before any call. -/
def svc0 : SvcState := { isStreaming := false, currentStream := none }

/-- A concrete, fully valid alert used by the concrete-input theorems. -/
def exAlert : Alert :=
  { id := "a1", vulnerability := "Prototype Pollution", package := "lodash",
    severity := "high", patched_in := "", apply_fix_in := "", repo_name := "" }

/-- A successful (status 200) response streaming the given chunks and then
ending as given. -/
def respOk (chunks : List String) (ending : Ending) : Transport :=
  Transport.response
    { ok := true, status := 200, statusText := "OK", jsonError := none,
      chunks := chunks, ending := ending }

/-- A failing response with the given status and optional parsed body
error. -/
def respFail (status : Nat) (statusText : String) (jsonError : Option String) : Transport :=
  Transport.response
    { ok := false, status := status, statusText := statusText, jsonError := jsonError,
      chunks := [], ending := Ending.eos }

section Lemmas

theorem readLoop_events_data (chunks : List String) : ∀ (buffer : String) (st : SvcState)
    (cp : Option Nat) (e : Event),
    e ∈ (readLoop chunks buffer st cp).events → isDataEvent e = true := by
  induction chunks with
  | nil =>
    intro buffer st cp e he
    simp [readLoop] at he
  | cons c rest ih =>
    intro buffer st cp e he
    simp only [readLoop] at he
    by_cases hD : includesDoneMarker (buffer ++ c)
    · simp [hD] at he
      subst he
      rfl
    · simp [hD] at he
      rcases he with he | he
      · subst he
        rfl
      · exact ih _ _ _ e he

theorem readLoop_indep (chunks : List String) : ∀ (buffer : String) (st st2 : SvcState)
    (cp cp2 : Option Nat),
    (readLoop chunks buffer st cp).events = (readLoop chunks buffer st2 cp2).events ∧
    (readLoop chunks buffer st cp).buffer = (readLoop chunks buffer st2 cp2).buffer ∧
    (readLoop chunks buffer st cp).remaining = (readLoop chunks buffer st2 cp2).remaining ∧
    (readLoop chunks buffer st cp).markerExit = (readLoop chunks buffer st2 cp2).markerExit := by
  induction chunks with
  | nil =>
    intro buffer st st2 cp cp2
    simp [readLoop]
  | cons c rest ih =>
    intro buffer st st2 cp cp2
    simp only [readLoop]
    by_cases hD : includesDoneMarker (buffer ++ c)
    · simp [hD]
    · obtain ⟨h1, h2, h3, h4⟩ :=
        ih (buffer ++ c) (if cp == some 1 then (cancelStream st).1 else st)
          (if cp2 == some 1 then (cancelStream st2).1 else st2)
          (cp.map (fun n => n - 1)) (cp2.map (fun n => n - 1))
      simp only [if_neg hD]
      exact ⟨by rw [h1], h2, h3, h4⟩

theorem aux_cp_irrelevant (st : SvcState) (a : Alert) (nowIso : String) (tr : Transport)
    (cp : Option Nat) :
    streamFixSuggestionAux st a nowIso tr cp = streamFixSuggestionAux st a nowIso tr none := by
  by_cases hst : st.isStreaming
  · simp [streamFixSuggestionAux, hst]
  · simp only [streamFixSuggestionAux, hst, Bool.false_eq_true, if_false]
    cases hv : validateAlertData a nowIso with
    | error m => rfl
    | ok pa =>
      cases tr with
      | noResponse m => rfl
      | response r =>
        by_cases hok : r.ok == false
        · simp [hok]
        · simp only [hok, Bool.false_eq_true, if_false]
          obtain ⟨h1, h2, h3, h4⟩ := readLoop_indep r.chunks ""
            { isStreaming := true, currentStream := some {} }
            { isStreaming := true, currentStream := some {} } cp none
          simp only [handleStreamingResponse, h1, h2, h4]
          by_cases hm : (readLoop r.chunks ""
            { isStreaming := true, currentStream := some {} } none).markerExit = true
          · simp [hm]
          · cases he : r.ending <;> simp [hm, he]

theorem run_finalState (st : SvcState) (a : Alert) (nowIso : String) (tr : Transport)
    (cp : Option Nat) (h : st.isStreaming = false) :
    (streamFixSuggestionAux st a nowIso tr cp).finalState
        = { isStreaming := false, currentStream := none } ∧
    (streamFixSuggestionAux st a nowIso tr cp).guardRejected = false := by
  simp only [streamFixSuggestionAux, h, Bool.false_eq_true, if_false]
  cases hv : validateAlertData a nowIso with
  | error m => simp
  | ok pa =>
    cases tr with
    | noResponse m => simp
    | response r =>
      by_cases hok : r.ok == false
      · simp [hok]
      · simp only [hok, Bool.false_eq_true, if_false]
        cases hth : (handleStreamingResponse r.chunks r.ending
            { isStreaming := true, currentStream := none } cp).thrown <;> simp [hth]

theorem hsr_shape (chunks : List String) (ending : Ending) (st : SvcState) (cp : Option Nat) :
    ∃ ps, (∀ e ∈ ps, isDataEvent e = true) ∧
      ((∃ b, (handleStreamingResponse chunks ending st cp).events = ps ++ [Event.onComplete b] ∧
             (handleStreamingResponse chunks ending st cp).thrown = none) ∨
       (∃ m, (handleStreamingResponse chunks ending st cp).events = ps ++ [Event.onError m] ∧
             (handleStreamingResponse chunks ending st cp).thrown = some m)) := by
  refine ⟨(readLoop chunks "" { isStreaming := st.isStreaming, currentStream := some {} } cp).events,
    fun e he => readLoop_events_data chunks "" _ cp e he, ?_⟩
  simp only [handleStreamingResponse]
  by_cases hm : (readLoop chunks ""
      { isStreaming := st.isStreaming, currentStream := some {} } cp).markerExit = true
  · exact Or.inl ⟨(readLoop chunks ""
      { isStreaming := st.isStreaming, currentStream := some {} } cp).buffer,
      by simp [hm], by simp [hm]⟩
  · cases ending with
    | eos => exact Or.inl ⟨(readLoop chunks ""
        { isStreaming := st.isStreaming, currentStream := some {} } cp).buffer,
        by simp [hm], by simp [hm]⟩
    | err m => exact Or.inr ⟨m, by simp [hm], by simp [hm]⟩

theorem run_shape (st : SvcState) (a : Alert) (nowIso : String) (tr : Transport)
    (h : st.isStreaming = false) :
    ∃ ps, (∀ e ∈ ps, isDataEvent e = true) ∧
      ((∃ b, (streamFixSuggestion st a nowIso tr).events = ps ++ [Event.onComplete b] ∧
             (streamFixSuggestion st a nowIso tr).thrown = none) ∨
       (∃ m, ((streamFixSuggestion st a nowIso tr).events = ps ++ [Event.onError m] ∨
              (streamFixSuggestion st a nowIso tr).events
                = ps ++ [Event.onError m, Event.onError m]) ∧
             (streamFixSuggestion st a nowIso tr).thrown = some m)) := by
  simp only [streamFixSuggestion, streamFixSuggestionAux, h, Bool.false_eq_true, if_false]
  cases hv : validateAlertData a nowIso with
  | error m => exact ⟨[], by simp, Or.inr ⟨m, Or.inl (by simp), by simp⟩⟩
  | ok pa =>
    cases tr with
    | noResponse m => exact ⟨[], by simp, Or.inr ⟨m, Or.inl (by simp), by simp⟩⟩
    | response r =>
      by_cases hok : r.ok == false
      · refine ⟨[], by simp, Or.inr ⟨(handleApiError r.status r.statusText r.jsonError).message,
          Or.inl (by simp [hok]), by simp [hok]⟩⟩
      · simp only [hok, Bool.false_eq_true, if_false]
        obtain ⟨ps, hps, hcase⟩ := hsr_shape r.chunks r.ending
          { isStreaming := true, currentStream := none } none
        rcases hcase with ⟨b, hev, hth⟩ | ⟨m, hev, hth⟩
        · exact ⟨ps, hps, Or.inl ⟨b, by simp [hth, hev], by simp [hth]⟩⟩
        · exact ⟨ps, hps, Or.inr ⟨m, Or.inr (by simp [hth, hev]), by simp [hth]⟩⟩

theorem readLoop_no_marker (chunks : List String) : ∀ (buffer : String) (st : SvcState)
    (cp : Option Nat),
    (∀ k, k < chunks.length →
      includesDoneMarker (accumFrom buffer (chunks.take (k+1))) = false) →
    (readLoop chunks buffer st cp).events = dataEvents buffer chunks ∧
    (readLoop chunks buffer st cp).buffer = accumFrom buffer chunks ∧
    (readLoop chunks buffer st cp).remaining = [] ∧
    (readLoop chunks buffer st cp).markerExit = false := by
  induction chunks with
  | nil =>
    intro buffer st cp _
    simp [readLoop, dataEvents, accumFrom]
  | cons c rest ih =>
    intro buffer st cp h
    have h0 : includesDoneMarker (buffer ++ c) = false := by
      have := h 0 (by simp)
      simpa [accumFrom] using this
    have h' : ∀ k, k < rest.length →
        includesDoneMarker (accumFrom (buffer ++ c) (rest.take (k+1))) = false := by
      intro k hk
      have := h (k+1) (by simpa using Nat.succ_lt_succ hk)
      simpa [accumFrom] using this
    obtain ⟨e1, e2, e3, e4⟩ := ih (buffer ++ c)
      (if cp == some 1 then (cancelStream st).1 else st) (cp.map (fun n => n - 1)) h'
    simp only [readLoop, h0, Bool.false_eq_true, if_false, dataEvents]
    exact ⟨by rw [e1], by rw [e2]; rfl, e3, e4⟩

theorem readLoop_marker_min (chunks : List String) : ∀ (buffer : String) (st : SvcState)
    (cp : Option Nat) (k : Nat),
    1 ≤ k → k ≤ chunks.length →
    includesDoneMarker (accumFrom buffer (chunks.take k)) = true →
    (∀ j, j < k → includesDoneMarker (accumFrom buffer (chunks.take j)) = false) →
    (readLoop chunks buffer st cp).events = dataEvents buffer (chunks.take k) ∧
    (readLoop chunks buffer st cp).buffer = accumFrom buffer (chunks.take k) ∧
    (readLoop chunks buffer st cp).remaining = chunks.drop k ∧
    (readLoop chunks buffer st cp).markerExit = true := by
  induction chunks with
  | nil =>
    intro buffer st cp k h1 h2 _ _
    simp only [List.length_nil] at h2
    omega
  | cons c rest ih =>
    intro buffer st cp k h1 h2 hmark hmin
    cases k with
    | zero => omega
    | succ k' =>
      cases k' with
      | zero =>
        have hm : includesDoneMarker (buffer ++ c) = true := by
          simpa [accumFrom] using hmark
        simp [readLoop, hm, dataEvents, accumFrom]
      | succ k'' =>
        have hm0 : includesDoneMarker (buffer ++ c) = false := by
          have := hmin 1 (by omega)
          simpa [accumFrom] using this
        have hmark' : includesDoneMarker (accumFrom (buffer ++ c) (rest.take (k''+1))) = true := by
          simpa [accumFrom] using hmark
        have hmin' : ∀ j, j < k''+1 →
            includesDoneMarker (accumFrom (buffer ++ c) (rest.take j)) = false := by
          intro j hj
          have := hmin (j+1) (by omega)
          simpa [accumFrom] using this
        obtain ⟨e1, e2, e3, e4⟩ := ih (buffer ++ c)
          (if cp == some 1 then (cancelStream st).1 else st) (cp.map (fun n => n - 1))
          (k''+1) (by omega) (by simpa using h2) hmark' hmin'
        simp only [readLoop, hm0, Bool.false_eq_true, if_false, dataEvents, List.take_succ_cons,
          List.drop_succ_cons]
        exact ⟨by rw [e1], by rw [e2]; rfl, e3, e4⟩

theorem foldl_modalStep_data (hc : Bool) (now : Int) :
    ∀ (ps : List Event) (acc : ModalFold), (∀ e ∈ ps, isDataEvent e = true) →
      ps.foldl (modalStep hc now) acc = acc := by
  intro ps
  induction ps with
  | nil => intro acc _; rfl
  | cons e rest ih =>
    intro acc h
    have he : isDataEvent e = true := h e (by simp)
    cases e with
    | onData t =>
      have := ih acc (fun x hx => h x (by simp [hx]))
      simpa [modalStep] using this
    | onComplete t => simp [isDataEvent] at he
    | onError m => simp [isDataEvent] at he
    | cancelled => simp [isDataEvent] at he

theorem completedTexts_append (l1 l2 : List Event) :
    completedTexts (l1 ++ l2) = completedTexts l1 ++ completedTexts l2 := by
  simp only [completedTexts, List.filterMap_append]

theorem completedTexts_data (ps : List Event) (h : ∀ e ∈ ps, isDataEvent e = true) :
    completedTexts ps = [] := by
  induction ps with
  | nil => rfl
  | cons e rest ih =>
    have he : isDataEvent e = true := h e (by simp)
    cases e with
    | onData t =>
      have := ih (fun x hx => h x (by simp [hx]))
      simpa [completedTexts] using this
    | onComplete t => simp [isDataEvent] at he
    | onError m => simp [isDataEvent] at he
    | cancelled => simp [isDataEvent] at he

end Lemmas

/-- C7: at most one streaming session exists at any instant: while a session
is active (`isStreaming = true`), a second `streamFixSuggestion` call is
rejected immediately by the single-flight guard with the
already-in-progress error, issues no network POST, invokes no subscriber
callback, and leaves the service state untouched. -/
theorem c7_single_flight (st : SvcState) (a : Alert) (nowIso : String) (tr : Transport)
    (h : st.isStreaming = true) :
    (streamFixSuggestion st a nowIso tr).guardRejected = true ∧
    (streamFixSuggestion st a nowIso tr).thrown = some alreadyInProgressMsg ∧
    (streamFixSuggestion st a nowIso tr).posts = [] ∧
    (streamFixSuggestion st a nowIso tr).events = [] ∧
    (streamFixSuggestion st a nowIso tr).finalState = st := by
  simp [streamFixSuggestion, streamFixSuggestionAux, h]

/-- Witness for C7 at a concrete active state and uncached alert. -/
theorem c7_single_flight_witness :
    ({ isStreaming := true, currentStream := none } : SvcState).isStreaming = true ∧
    (streamFixSuggestion { isStreaming := true, currentStream := none } exAlert "t"
      (respOk ["x"] Ending.eos)).guardRejected = true ∧
    (streamFixSuggestion { isStreaming := true, currentStream := none } exAlert "t"
      (respOk ["x"] Ending.eos)).posts = [] :=
  have h := c7_single_flight { isStreaming := true, currentStream := none } exAlert "t"
    (respOk ["x"] Ending.eos) rfl
  ⟨rfl, h.1, h.2.2.1⟩

/-- C10: whenever `streamFixSuggestion` actually ran (the guard admitted it),
the finally block leaves `isStreaming = false` and `currentStream = null`
on every terminal path — validation failure, network failure, classified
HTTP error, stream-read failure, marker completion or end-of-stream — so a
subsequent call is never rejected by the single-flight guard. -/
theorem c10_guard_released (st : SvcState) (a : Alert) (nowIso : String) (tr : Transport)
    (h : st.isStreaming = false) :
    (streamFixSuggestion st a nowIso tr).finalState
        = { isStreaming := false, currentStream := none } ∧
    ∀ (a2 : Alert) (nowIso2 : String) (tr2 : Transport),
      (streamFixSuggestion (streamFixSuggestion st a nowIso tr).finalState
        a2 nowIso2 tr2).guardRejected = false := by
  have h1 := run_finalState st a nowIso tr none h
  have h2 : (streamFixSuggestion st a nowIso tr).finalState
      = { isStreaming := false, currentStream := none } := h1.1
  refine ⟨h2, fun a2 n2 t2 => ?_⟩
  exact (run_finalState (streamFixSuggestion st a nowIso tr).finalState a2 n2 t2 none
    (by rw [h2])).2

/-- Witness for C10 at a concrete failing run (status 429) followed by a
concrete retry. -/
theorem c10_guard_released_witness :
    svc0.isStreaming = false ∧
    (streamFixSuggestion svc0 exAlert "t"
      (respFail 429 "Too Many Requests" none)).finalState
      = { isStreaming := false, currentStream := none } :=
  ⟨rfl, (c10_guard_released svc0 exAlert "t"
    (respFail 429 "Too Many Requests" none) rfl).1⟩

/-- C2 (amended): for every admitted session, the delivered callback
sequence is zero or more `onData` events followed by a terminal group that
is exactly one `onComplete`, exactly one `onError`, or — when the failure
arises inside the read loop, because both the inner catch of
`_handleStreamingResponse` and the outer catch of `streamFixSuggestion`
invoke the error callback — the same `onError` twice; no non-terminal event
ever follows a terminal one. -/
theorem c2_event_sequence (st : SvcState) (a : Alert) (nowIso : String) (tr : Transport)
    (h : st.isStreaming = false) :
    ∃ ps t, (streamFixSuggestion st a nowIso tr).events = ps ++ t ∧
      (∀ e ∈ ps, isDataEvent e = true) ∧
      ((∃ b, t = [Event.onComplete b]) ∨ (∃ m, t = [Event.onError m]) ∨
        (∃ m, t = [Event.onError m, Event.onError m])) := by
  obtain ⟨ps, hps, hcase⟩ := run_shape st a nowIso tr h
  rcases hcase with ⟨b, hev, _⟩ | ⟨m, hev | hev, _⟩
  · exact ⟨ps, [Event.onComplete b], hev, hps, Or.inl ⟨b, rfl⟩⟩
  · exact ⟨ps, [Event.onError m], hev, hps, Or.inr (Or.inl ⟨m, rfl⟩)⟩
  · exact ⟨ps, [Event.onError m, Event.onError m], hev, hps, Or.inr (Or.inr ⟨m, rfl⟩)⟩

/-- Witness for C2 on a concrete successful two-chunk session. -/
theorem c2_event_sequence_witness :
    svc0.isStreaming = false ∧
    ∃ ps t, (streamFixSuggestion svc0 exAlert "t"
        (respOk ["a", "b"] Ending.eos)).events = ps ++ t ∧
      (∀ e ∈ ps, isDataEvent e = true) ∧
      ((∃ b, t = [Event.onComplete b]) ∨ (∃ m, t = [Event.onError m]) ∨
        (∃ m, t = [Event.onError m, Event.onError m])) :=
  ⟨rfl, c2_event_sequence svc0 exAlert "t"
    (respOk ["a", "b"] Ending.eos) rfl⟩

/-- Counterexample to C2 as stated: a read failure after one chunk makes the
session deliver the terminal `onError` twice (inner catch of
`_handleStreamingResponse`, then outer catch of `streamFixSuggestion`) —
two terminal events, not exactly one. -/
theorem c2_counterexample :
    (streamFixSuggestion svc0 exAlert "t"
      (respOk ["a"] (Ending.err "boom"))).events
      = [Event.onData "a", Event.onError "boom", Event.onError "boom"] ∧
    ((streamFixSuggestion svc0 exAlert "t"
      (respOk ["a"] (Ending.err "boom"))).events.filter
          isTerminalEvent).length = 2 := by
  constructor <;> rfl

/-- C3 (amended): `cancelStream` never invokes `currentStream.abort()` (the
stored reader has no such method), contributes no event whatsoever to the
session trace — interleaving a cancel after any `onData` callback leaves
the whole run outcome unchanged, so late `onData`/`onComplete`/`onError`
events are still delivered — and is idempotent on the service state, its
only effect being to reset `isStreaming` and `currentStream`. -/
theorem c3_cancel_inert (st : SvcState) (a : Alert) (nowIso : String) (tr : Transport)
    (k : Nat) (s : SvcState) :
    runWithCancelAfter st a nowIso tr k = streamFixSuggestion st a nowIso tr ∧
    (cancelStream s).2 = false ∧
    (cancelStream (cancelStream s).1).1 = (cancelStream s).1 ∧
    (cancelStream s).1 = { isStreaming := false, currentStream := none } := by
  refine ⟨aux_cp_irrelevant st a nowIso tr (some k), ?_, rfl, rfl⟩
  cases hc : s.currentStream <;> simp [cancelStream, readerHasAbortMethod, hc]

/-- Counterexample to C3 as stated: cancelling right after the first
`onData` of an active two-chunk session emits zero `Cancelled` events (not
exactly one) and suppresses nothing — the second `onData` and the final
`onComplete` are still delivered. -/
theorem c3_counterexample :
    (runWithCancelAfter svc0 exAlert "t"
      (respOk ["a", "b"] Ending.eos) 1).events
      = [Event.onData "a", Event.onData "ab", Event.onComplete "ab"] ∧
    ((runWithCancelAfter svc0 exAlert "t"
      (respOk ["a", "b"] Ending.eos) 1).events.filter
          isCancelledEvent).length = 0 := by
  constructor <;> rfl

/-- C4: transport-failure classification is a total, deterministic function
of the failure signal: no response maps to `NetworkError` (via
`getErrorMessage`), status 401 to `Unauthorized`, 429 to `RateLimited`,
500 to `ServiceInternalError`, 503 to `ServiceUnavailable`, and every
other status to `UnknownApiError`; the message `_handleApiError` attaches
is exactly the message of the classified kind (the raw parsed-body message
or the default for `UnknownApiError`), and the raw status/statusText are
carried on the error.  Classification is a Lean function, hence total and
deterministic, and the only fallible step of the source (parsing the JSON
body) is caught and modelled by the `Option`-valued body argument. -/
theorem c4_classifier (status : Nat) (sx : String)
    (h1 : status ≠ 401) (h2 : status ≠ 429) (h3 : status ≠ 500) (h4 : status ≠ 503) :
    classifyKind none = ErrorKind.networkError ∧
    classifyKind (some 401) = ErrorKind.unauthorized ∧
    classifyKind (some 429) = ErrorKind.rateLimited ∧
    classifyKind (some 500) = ErrorKind.serviceInternalError ∧
    classifyKind (some 503) = ErrorKind.serviceUnavailable ∧
    classifyKind (some status) = ErrorKind.unknownApiError ∧
    (∀ (s : Nat) (b : Option String),
      (handleApiError s sx b).message = messageOfKind (classifyKind (some s)) b ∧
      (handleApiError s sx b).status = s ∧
      (handleApiError s sx b).statusText = sx) ∧
    getErrorMessage none = NETWORK_ERROR := by
  refine ⟨rfl, rfl, rfl, rfl, rfl, ?_, ?_, rfl⟩
  · simp [classifyKind, beq_iff_eq, h1, h2, h3, h4]
  · intro s b
    refine ⟨?_, rfl, rfl⟩
    by_cases e1 : s = 401
    · subst e1; rfl
    · by_cases e2 : s = 429
      · subst e2; rfl
      · by_cases e3 : s = 503
        · subst e3; rfl
        · by_cases e4 : s = 500
          · subst e4; rfl
          · simp [handleApiError, messageOfKind, classifyKind, beq_iff_eq, e1, e2, e3, e4]

/-- Witness for C4 at a concrete unmapped status (404) without a parseable
body. -/
theorem c4_classifier_witness :
    (404 : Nat) ≠ 401 ∧
    classifyKind (some 404) = ErrorKind.unknownApiError ∧
    (handleApiError 404 "Not Found" none).message = AI_SERVICE_ERROR ∧
    getErrorMessage none = NETWORK_ERROR := by
  have h := c4_classifier 404 "Not Found" (by decide) (by decide) (by decide) (by decide)
  exact ⟨by decide, h.2.2.2.2.2.1, ((h.2.2.2.2.2.2.1 404 none).1).trans rfl, h.2.2.2.2.2.2.2⟩

/-- C5: the read loop considers the response finished exactly at transport
end-of-stream or as soon as the accumulated text contains the done marker.
Part one: when no prefix accumulation ever contains the marker, every chunk
is consumed, the loop does not exit via the marker, and (on end-of-stream)
completion is reported with the full accumulated text after the cumulative
`onData` events.  Part two: when the marker first appears in the
accumulation after chunk `k`, exactly the first `k` chunks are consumed
(the rest are never read), and completion is reported with the text
accumulated so far — whatever the transport ending would have been. -/
theorem c5_completion_detection :
    (∀ (chunks : List String) (st : SvcState) (cp : Option Nat),
      (∀ k, k < chunks.length →
        includesDoneMarker (accumFrom "" (chunks.take (k+1))) = false) →
      (readLoop chunks "" st cp).remaining = [] ∧
      (readLoop chunks "" st cp).markerExit = false ∧
      (handleStreamingResponse chunks Ending.eos st cp).events
        = dataEvents "" chunks ++ [Event.onComplete (accumFrom "" chunks)]) ∧
    (∀ (chunks : List String) (ending : Ending) (st : SvcState) (cp : Option Nat) (k : Nat),
      1 ≤ k → k ≤ chunks.length →
      includesDoneMarker (accumFrom "" (chunks.take k)) = true →
      (∀ j, j < k → includesDoneMarker (accumFrom "" (chunks.take j)) = false) →
      (readLoop chunks "" st cp).remaining = chunks.drop k ∧
      (readLoop chunks "" st cp).markerExit = true ∧
      (handleStreamingResponse chunks ending st cp).events
        = dataEvents "" (chunks.take k) ++ [Event.onComplete (accumFrom "" (chunks.take k))]) := by
  constructor
  · intro chunks st cp h
    obtain ⟨r1, r2, r3, r4⟩ := readLoop_no_marker chunks "" st cp h
    obtain ⟨s1, s2, s3, s4⟩ := readLoop_no_marker chunks ""
      { isStreaming := st.isStreaming, currentStream := some {} } cp h
    refine ⟨r3, r4, ?_⟩
    simp [handleStreamingResponse, s1, s2, s4]
  · intro chunks ending st cp k h1 h2 hmark hmin
    obtain ⟨r1, r2, r3, r4⟩ := readLoop_marker_min chunks "" st cp k h1 h2 hmark hmin
    obtain ⟨s1, s2, s3, s4⟩ := readLoop_marker_min chunks ""
      { isStreaming := st.isStreaming, currentStream := some {} } cp k h1 h2 hmark hmin
    refine ⟨r3, r4, ?_⟩
    simp [handleStreamingResponse, s1, s2, s4]

/-- Witness for C5: a marker-free one-chunk stream completes at
end-of-stream with its full text, and a stream whose first chunk contains
the done marker completes immediately with that text even though the
transport would later have failed, leaving the second chunk unread. -/
theorem c5_completion_detection_witness :
    ((readLoop ["hi"] "" svc0 none).remaining = [] ∧
     (readLoop ["hi"] "" svc0 none).markerExit = false ∧
     (handleStreamingResponse ["hi"] Ending.eos svc0 none).events
       = dataEvents "" ["hi"] ++ [Event.onComplete (accumFrom "" ["hi"])]) ∧
    ((readLoop ["✅ Done", "extra"] "" svc0 none).remaining = ["✅ Done", "extra"].drop 1 ∧
     (readLoop ["✅ Done", "extra"] "" svc0 none).markerExit = true ∧
     (handleStreamingResponse ["✅ Done", "extra"] (Ending.err "x") svc0 none).events
       = dataEvents "" (["✅ Done", "extra"].take 1)
         ++ [Event.onComplete (accumFrom "" (["✅ Done", "extra"].take 1))]) := by
  constructor
  · exact c5_completion_detection.1 ["hi"] svc0 none (by
      intro k hk
      simp only [List.length_singleton] at hk
      have hk0 : k = 0 := by omega
      subst hk0
      decide)
  · exact c5_completion_detection.2 ["✅ Done", "extra"] (Ending.err "x") svc0 none 1
      (by decide) (by decide) (by decide) (by
        intro j hj
        have hj0 : j = 0 := by omega
        subst hj0
        decide)

/-- Counterexample to C6 as stated: an entry whose age is exactly the 24h
window (which "does not exceed" it) is nonetheless treated as absent,
because `getCachedResponse` requires the age to be strictly below the
window. -/
theorem c6_counterexample :
    (86400000 : Int) - (0 : Int) ≤ CACHE_TTL ∧
    lookupEntry [("a1", { response := "text", timestamp := 0 })] "a1"
      = some { response := "text", timestamp := 0 } ∧
    getCachedResponse [("a1", { response := "text", timestamp := 0 })] 86400000 "a1" = none := by
  refine ⟨by decide, rfl, rfl⟩

/-- C6 (amended): for every non-empty alertId, `getCachedResponse` returns
the stored text iff an entry exists under that id whose text is non-empty
(the falsy-text guard of the source; the service never stores empty text)
and whose age `now - storedAt` is strictly less than the 24-hour window; in
particular an entry with `storedAt = now - 25h` is treated as absent
without being purged. -/
theorem c6_cache_expiry (cache : Cache) (now : Int) (alertId : String) (t : String)
    (hid : alertId ≠ "") :
    (getCachedResponse cache now alertId = some t ↔
      ∃ e, lookupEntry cache alertId = some e ∧ e.response = t ∧ t ≠ "" ∧
        now - e.timestamp < CACHE_TTL) := by
  simp only [getCachedResponse]
  rw [if_neg (by simpa using hid)]
  cases hl : lookupEntry cache alertId with
  | none => simp
  | some e =>
    dsimp only
    by_cases hr : e.response = ""
    · simp only [hr, beq_self_eq_true, if_true]
      constructor
      · intro h
        cases h
      · rintro ⟨e2, he2, ht, hne, _⟩
        rw [Option.some.injEq] at he2
        subst he2
        rw [hr] at ht
        exact absurd ht.symm hne
    · rw [if_neg (by simpa using hr)]
      by_cases hv : now - e.timestamp < CACHE_TTL
      · rw [if_pos hv]
        constructor
        · intro h
          rw [Option.some.injEq] at h
          exact ⟨e, rfl, h, by rw [← h]; exact hr, hv⟩
        · rintro ⟨e2, he2, ht, hne, _⟩
          rw [Option.some.injEq] at he2
          subst he2
          rw [ht]
      · rw [if_neg hv]
        constructor
        · intro h
          cases h
        · rintro ⟨e2, he2, ht, hne, hv2⟩
          rw [Option.some.injEq] at he2
          subst he2
          exact absurd hv2 hv

/-- Witness for C6: a fresh entry is returned, and a 25-hour-old entry is
absent (derived by applying the amended theorem at concrete inputs). -/
theorem c6_cache_expiry_witness :
    ("a1" : String) ≠ "" ∧
    getCachedResponse [("a1", { response := "hello", timestamp := 0 })] 1000 "a1"
      = some "hello" ∧
    getCachedResponse [("a1", { response := "hello", timestamp := 0 })] 90000000 "a1"
      ≠ some "hello" := by
  refine ⟨by decide, ?_, ?_⟩
  · exact (c6_cache_expiry [("a1", { response := "hello", timestamp := 0 })] 1000 "a1" "hello"
      (by decide)).mpr ⟨{ response := "hello", timestamp := 0 }, rfl, rfl, by decide, by decide⟩
  · intro h
    have hthm := (c6_cache_expiry [("a1", { response := "hello", timestamp := 0 })] 90000000 "a1"
      "hello" (by decide)).mp h
    rcases hthm with ⟨e, he, _, _, hv⟩
    have he2 : some ({ response := "hello", timestamp := 0 } : CacheEntry) = some e := he
    rw [Option.some.injEq] at he2
    subst he2
    revert hv
    decide

/-- C8: for every admitted call on an alert missing (or carrying an empty)
`vulnerability`, `package` or `severity`, `streamFixSuggestion` fails
before any network activity: no POST is issued, the thrown and reported
error is the missing-required-fields message. -/
theorem c8_validation_no_network (st : SvcState) (a : Alert) (nowIso : String) (tr : Transport)
    (hst : st.isStreaming = false)
    (hmiss : a.vulnerability = "" ∨ a.package = "" ∨ a.severity = "") :
    (streamFixSuggestion st a nowIso tr).posts = [] ∧
    (streamFixSuggestion st a nowIso tr).events
      = [Event.onError ("Missing required fields: "
          ++ String.intercalate ", " (missingFields a))] ∧
    (streamFixSuggestion st a nowIso tr).thrown
      = some ("Missing required fields: " ++ String.intercalate ", " (missingFields a)) := by
  have hpos : 0 < (missingFields a).length := by
    rcases hmiss with h | h | h
    · simp [missingFields, requiredFields, alertField, h]
    · by_cases hv : a.vulnerability = "" <;>
        simp [missingFields, requiredFields, alertField, h, hv]
    · by_cases hv : a.vulnerability = "" <;> by_cases hp : a.package = "" <;>
        simp [missingFields, requiredFields, alertField, h, hv, hp]
  have hval : validateAlertData a nowIso
      = Except.error ("Missing required fields: "
          ++ String.intercalate ", " (missingFields a)) := by
    simp [validateAlertData, hpos]
  simp [streamFixSuggestion, streamFixSuggestionAux, hst, hval]

/-- Witness for C8 on a concrete alert with an empty `package` field. -/
theorem c8_validation_no_network_witness :
    svc0.isStreaming = false ∧
    (streamFixSuggestion svc0
      { id := "a9", vulnerability := "XSS", package := "", severity := "high",
        patched_in := "", apply_fix_in := "", repo_name := "" } "t"
      (respOk ["x"] Ending.eos)).posts = [] ∧
    (streamFixSuggestion svc0
      { id := "a9", vulnerability := "XSS", package := "", severity := "high",
        patched_in := "", apply_fix_in := "", repo_name := "" } "t"
      (respOk ["x"] Ending.eos)).events
      = [Event.onError ("Missing required fields: "
          ++ String.intercalate ", " (missingFields
            { id := "a9", vulnerability := "XSS", package := "", severity := "high",
              patched_in := "", apply_fix_in := "", repo_name := "" }))] :=
  have h := c8_validation_no_network svc0
    { id := "a9", vulnerability := "XSS", package := "", severity := "high",
      patched_in := "", apply_fix_in := "", repo_name := "" } "t"
    (respOk ["x"] Ending.eos) rfl (Or.inr (Or.inl rfl))
  ⟨rfl, h.1, h.2.1⟩

/-- Counterexample to C9 as stated: a session that completes successfully
with an empty accumulated text (the transport closes the stream before any
chunk) produces a `Completed{""}` event but zero cache writes, because
`cacheResponse` refuses falsy text — not exactly one write. -/
theorem c9_counterexample :
    (runModalSession true [] 0 "t" svc0 exAlert (respOk [] Ending.eos)).run.thrown = none ∧
    (runModalSession true [] 0 "t" svc0 exAlert (respOk [] Ending.eos)).run.events
      = [Event.onComplete ""] ∧
    (runModalSession true [] 0 "t" svc0 exAlert (respOk [] Ending.eos)).writes = [] := by
  refine ⟨rfl, rfl, rfl⟩

/-- C9 (amended): for every admitted session on an alert with a non-empty
id, run with the modal open and its content element present: if the session
completes successfully, the `Completed` event carries the accumulated text
`b` of the consumed chunks and — when `b` is non-empty — exactly one cache
write occurs, storing exactly `b` under the alert's id (an empty completed
text is refused by `cacheResponse` and causes no write); if the session
fails, no cache write occurs. -/
theorem c9_write_through (cache : Cache) (now : Int) (nowIso : String) (svc : SvcState)
    (a : Alert) (tr : Transport) (hsvc : svc.isStreaming = false) (hid : a.id ≠ "") :
    ((runModalSession true cache now nowIso svc a tr).run.thrown = none →
      ∃ b, completedTexts (runModalSession true cache now nowIso svc a tr).run.events = [b] ∧
        (b ≠ "" → (runModalSession true cache now nowIso svc a tr).writes = [(a.id, b)] ∧
          (runModalSession true cache now nowIso svc a tr).cache
            = setEntry cache a.id { response := b, timestamp := now }) ∧
        (b = "" → (runModalSession true cache now nowIso svc a tr).writes = [] ∧
          (runModalSession true cache now nowIso svc a tr).cache = cache)) ∧
    (∀ m, (runModalSession true cache now nowIso svc a tr).run.thrown = some m →
      (runModalSession true cache now nowIso svc a tr).writes = [] ∧
      (runModalSession true cache now nowIso svc a tr).cache = cache) := by
  obtain ⟨ps, hps, hcase⟩ := run_shape svc a nowIso tr hsvc
  have hw : (runModalSession true cache now nowIso svc a tr).writes
      = ((streamFixSuggestion svc a nowIso tr).events.foldl (modalStep true now)
          { modal := { isVisible := true, isStreaming := true, currentAlert := some a },
            cache := cache, writes := [] }).writes := by
    simp only [runModalSession]
    cases (streamFixSuggestion svc a nowIso tr).thrown <;> rfl
  have hc : (runModalSession true cache now nowIso svc a tr).cache
      = ((streamFixSuggestion svc a nowIso tr).events.foldl (modalStep true now)
          { modal := { isVisible := true, isStreaming := true, currentAlert := some a },
            cache := cache, writes := [] }).cache := by
    simp only [runModalSession]
    cases (streamFixSuggestion svc a nowIso tr).thrown <;> rfl
  constructor
  · intro hok
    have hok' : (streamFixSuggestion svc a nowIso tr).thrown = none := hok
    rcases hcase with ⟨b, hev, hth⟩ | ⟨m, hev, hth⟩
    · refine ⟨b, ?_, ?_, ?_⟩
      · have : completedTexts (runModalSession true cache now nowIso svc a tr).run.events
            = completedTexts (ps ++ [Event.onComplete b]) := by
          rw [show (runModalSession true cache now nowIso svc a tr).run
            = streamFixSuggestion svc a nowIso tr from rfl, hev]
        rw [this, completedTexts_append, completedTexts_data ps hps]
        rfl
      · intro hb
        rw [hw, hc, hev, List.foldl_append,
          foldl_modalStep_data true now ps _ hps]
        simp [modalStep, handleStreamingComplete, cacheResponse, hid, hb]
      · intro hb
        rw [hw, hc, hev, List.foldl_append,
          foldl_modalStep_data true now ps _ hps]
        simp [modalStep, handleStreamingComplete, cacheResponse, hid, hb]
    · rw [hth] at hok'
      cases hok'
  · intro m2 hsome
    have hsome' : (streamFixSuggestion svc a nowIso tr).thrown = some m2 := hsome
    rcases hcase with ⟨b, hev, hth⟩ | ⟨m, hev | hev, hth⟩
    · rw [hth] at hsome'
      cases hsome'
    · rw [hw, hc, hev, List.foldl_append, foldl_modalStep_data true now ps _ hps]
      exact ⟨rfl, rfl⟩
    · rw [hw, hc, hev, List.foldl_append, foldl_modalStep_data true now ps _ hps]
      exact ⟨rfl, rfl⟩

/-- Witness for C9 on a concrete successful one-chunk session ("hi"). -/
theorem c9_write_through_witness :
    svc0.isStreaming = false ∧ exAlert.id ≠ "" ∧
    (∃ b, completedTexts (runModalSession true [] 5 "t" svc0 exAlert
        (respOk ["hi"] Ending.eos)).run.events = [b] ∧
      (b ≠ "" → (runModalSession true [] 5 "t" svc0 exAlert
          (respOk ["hi"] Ending.eos)).writes = [(exAlert.id, b)] ∧
        (runModalSession true [] 5 "t" svc0 exAlert (respOk ["hi"] Ending.eos)).cache
          = setEntry [] exAlert.id { response := b, timestamp := 5 }) ∧
      (b = "" → (runModalSession true [] 5 "t" svc0 exAlert
          (respOk ["hi"] Ending.eos)).writes = [] ∧
        (runModalSession true [] 5 "t" svc0 exAlert (respOk ["hi"] Ending.eos)).cache = [])) :=
  ⟨rfl, by decide,
    (c9_write_through [] 5 "t" svc0 exAlert (respOk ["hi"] Ending.eos) rfl (by decide)).1 rfl⟩

/-- C1 (code bug): with a live cache entry for the alert's id,
`handleAIAssistRequest` takes the cache-hit branch (`loadCachedResponse`
returns true and the displayed text is set from the cache) — but it then
calls `showModal`, which unconditionally starts `streamFixSuggestion`, so
one POST is still issued to `/stream_fix` and a fresh streaming session
runs, contradicting the zero-network-activity claim. -/
theorem c1_cache_hit_still_streams :
    loadCachedResponse [("a1", { response := "cached suggestion", timestamp := 0 })]
      1000 exAlert = true ∧
    (handleAIAssistRequest true [("a1", { response := "cached suggestion", timestamp := 0 })]
      1000 "t" svc0 exAlert (respOk ["x"] Ending.eos)).cacheHit = true ∧
    (handleAIAssistRequest true [("a1", { response := "cached suggestion", timestamp := 0 })]
      1000 "t" svc0 exAlert (respOk ["x"] Ending.eos)).posts.length = 1 ∧
    (handleAIAssistRequest true [("a1", { response := "cached suggestion", timestamp := 0 })]
      1000 "t" svc0 exAlert (respOk ["x"] Ending.eos)).events
      = [Event.onData "x", Event.onComplete "x"] := by
  refine ⟨rfl, rfl, rfl, rfl⟩

end Dash
